import Mathlib

/-!
Shallow embedding of the `abc-demo` pallet (src/pallets/abc-demo/src/lib.rs)
of raindust/substrate-demo, together with theorems about the task dispatch
and callback protocol it implements.

Bytes are modelled as `Nat` values below 256, byte strings as `List Nat`,
and 64-bit machine words as `Nat` reduced modulo `2 ^ 64` where overflow
matters.  Account identifiers and hashes enter the identifier generator via
their SCALE encodings, so both are modelled directly as byte lists.
-/

namespace AbcDemo

/-- A byte string: the model of Rust `Vec u8`. -/
abbrev Bytes := List Nat

/-- `type EmployerAccountId = Vec u8` in the source. -/
abbrev EmployerAccountId := Bytes

/-- `type ErrandId = Vec u8` in the source. -/
abbrev ErrandId := Bytes

/-- `type Cid = Vec u8` in the source. -/
abbrev Cid := Bytes

/-- An account identifier, represented by its SCALE-encoded bytes
(for the concrete `AccountId32` type the encoding is the raw 32 bytes). -/
abbrev AccountId := Bytes

/-- SCALE encoding of a `T::AccountId` value: for `AccountId32` this is the
raw byte string, so encoding is the identity on our representation. -/
def encode_account (a : AccountId) : Bytes := a

/-- ASCII bytes of a string literal (all literals in the source are ASCII). -/
def ascii (s : String) : Bytes := s.data.map (fun c => c.toNat)

/-! ### 64-bit word arithmetic over `Nat` -/

/-- Addition modulo `2 ^ 64`. -/
def add64 (a b : Nat) : Nat := (a + b) % (2 ^ 64)

/-- Right rotation of a 64-bit word by `n` places. -/
def rotr64 (x n : Nat) : Nat := ((x >>> n) ||| (x <<< (64 - n))) % (2 ^ 64)

/-- Little-endian serialization of a 64-bit word into 8 bytes. -/
def le64 (x : Nat) : Bytes :=
  [x % 256, x / 256 % 256, x / 256 ^ 2 % 256, x / 256 ^ 3 % 256,
   x / 256 ^ 4 % 256, x / 256 ^ 5 % 256, x / 256 ^ 6 % 256, x / 256 ^ 7 % 256]

/-- Little-endian reading of a list of bytes as one word. -/
def wordOfLE (bs : Bytes) : Nat := bs.foldr (fun b acc => acc * 256 + b) 0

/-! ### Blake2b

`sp_io::hashing::blake2_128` is Blake2b with an empty key and a 16-byte
digest.  The hash state is a list of eight 64-bit words. -/

/-- The Blake2b initialization vector. -/
def blake2bIV : List Nat :=
  [0x6a09e667f3bcc908, 0xbb67ae8584caa73b, 0x3c6ef372fe94f82b, 0xa54ff53a5f1d36f1,
   0x510e527fade682d1, 0x9b05688c2b3e6c1f, 0x1f83d9abfb41bd6b, 0x5be0cd19137e2179]

/-- The Blake2 message schedule: round `r` of Blake2b uses row `r % 10`. -/
def blake2Sigma : List (List Nat) :=
  [[0, 1, 2, 3, 4, 5, 6, 7, 8, 9, 10, 11, 12, 13, 14, 15],
   [14, 10, 4, 8, 9, 15, 13, 6, 1, 12, 0, 2, 11, 7, 5, 3],
   [11, 8, 12, 0, 5, 2, 15, 13, 10, 14, 3, 6, 7, 1, 9, 4],
   [7, 9, 3, 1, 13, 12, 11, 14, 2, 6, 5, 10, 4, 0, 15, 8],
   [9, 0, 5, 7, 2, 4, 10, 15, 14, 1, 11, 12, 6, 8, 3, 13],
   [2, 12, 6, 10, 0, 11, 8, 3, 4, 13, 7, 5, 15, 14, 1, 9],
   [12, 5, 1, 15, 14, 13, 4, 10, 0, 7, 6, 3, 9, 2, 8, 11],
   [13, 11, 7, 14, 12, 1, 3, 9, 5, 0, 15, 4, 8, 6, 2, 10],
   [6, 15, 14, 9, 11, 3, 0, 8, 12, 2, 13, 7, 1, 4, 10, 5],
   [10, 2, 8, 4, 7, 6, 1, 5, 15, 11, 9, 14, 3, 12, 13, 0]]

/-- The Blake2b `G` mixing function acting on working-vector indices
`a b c d` with message words `x y`. -/
def blake2G (v : List Nat) (a b c d x y : Nat) : List Nat :=
  let va := add64 (add64 (v.getD a 0) (v.getD b 0)) x
  let vd := rotr64 ((v.getD d 0) ^^^ va) 32
  let vc := add64 (v.getD c 0) vd
  let vb := rotr64 ((v.getD b 0) ^^^ vc) 24
  let va2 := add64 (add64 va vb) y
  let vd2 := rotr64 (vd ^^^ va2) 16
  let vc2 := add64 vc vd2
  let vb2 := rotr64 (vb ^^^ vc2) 63
  ((((v.set a va2).set b vb2).set c vc2).set d vd2)

/-- One Blake2b round: eight `G` applications scheduled by a sigma row. -/
def blake2Round (m : List Nat) (v : List Nat) (s : List Nat) : List Nat :=
  let mi := fun i => m.getD (s.getD i 0) 0
  let v := blake2G v 0 4 8 12 (mi 0) (mi 1)
  let v := blake2G v 1 5 9 13 (mi 2) (mi 3)
  let v := blake2G v 2 6 10 14 (mi 4) (mi 5)
  let v := blake2G v 3 7 11 15 (mi 6) (mi 7)
  let v := blake2G v 0 5 10 15 (mi 8) (mi 9)
  let v := blake2G v 1 6 11 12 (mi 10) (mi 11)
  let v := blake2G v 2 7 8 13 (mi 12) (mi 13)
  blake2G v 3 4 9 14 (mi 14) (mi 15)

/-- Split a (128-byte) message block into sixteen little-endian words. -/
def blockWords (block : Bytes) : List Nat :=
  (List.range 16).map (fun i => wordOfLE ((block.drop (8 * i)).take 8))

/-- The Blake2b compression function: `h` is the 8-word state, `block` a
128-byte message block, `t` the byte offset counter and `last` the
final-block flag. -/
def blake2Compress (h : List Nat) (block : Bytes) (t : Nat) (last : Bool) : List Nat :=
  let m := blockWords block
  let v := h ++ blake2bIV
  let v := v.set 12 ((v.getD 12 0) ^^^ (t % 2 ^ 64))
  let v := v.set 13 ((v.getD 13 0) ^^^ (t / 2 ^ 64))
  let v := if last then v.set 14 ((v.getD 14 0) ^^^ (2 ^ 64 - 1)) else v
  let v := (List.range 12).foldl (fun v r => blake2Round m v (blake2Sigma.getD (r % 10) [])) v
  (List.range 8).map (fun i => (h.getD i 0) ^^^ (v.getD i 0) ^^^ (v.getD (i + 8) 0))

/-- Split a message into 128-byte chunks; the final chunk may be short and
an empty message yields one empty chunk. -/
def chunks128 (l : Bytes) : List Bytes :=
  if l.length ≤ 128 then [l]
  else l.take 128 :: chunks128 (l.drop 128)
termination_by l.length
decreasing_by simpa using by omega

/-- Pad a block with zero bytes to 128 bytes. -/
def padBlock (b : Bytes) : Bytes := b ++ List.replicate (128 - b.length) 0

/-- Run the compression function over all chunks; `done` counts the bytes of
the fully processed chunks and `total` is the whole message length. -/
def blake2Loop (h : List Nat) (bs : List Bytes) (done total : Nat) : List Nat :=
  match bs with
  | [] => h
  | [b] => blake2Compress h (padBlock b) total true
  | b :: rest => blake2Loop (blake2Compress h b (done + 128) false) rest (done + 128) total

/-- Unkeyed Blake2b with an `outLen`-byte digest. -/
def blake2b (outLen : Nat) (msg : Bytes) : Bytes :=
  let h0 := blake2bIV.set 0 ((blake2bIV.getD 0 0) ^^^ 0x01010000 ^^^ outLen)
  let h := blake2Loop h0 (chunks128 msg) 0 msg.length
  ((h.map le64).flatten).take outLen

/-- `sp_io::hashing::blake2_128`: Blake2b with a 16-byte digest. -/
def blake2_128 (msg : Bytes) : Bytes := blake2b 16 msg

/-! ### UUID formatting (uuid crate, `Builder` + `to_hyphenated`) -/

/-- `Builder.set_variant(Variant::RFC4122)`: byte 8 gets its top two bits
forced to `10`. -/
def set_variant_rfc4122 (b : Bytes) : Bytes :=
  b.set 8 (((b.getD 8 0) &&& 0x3f) ||| 0x80)

/-- `Builder.set_version(Version::Random)`: the high nibble of byte 6 is
forced to `4`. -/
def set_version_random (b : Bytes) : Bytes :=
  b.set 6 (((b.getD 6 0) &&& 0x0f) ||| 0x40)

/-- Lower-case hex digit of a value below 16, as an ASCII byte. -/
def hexDigitLower (n : Nat) : Nat := if n < 10 then 48 + n else 87 + n

/-- Two lower-case hex digits of one byte. -/
def byteHexLower (b : Nat) : Bytes := [hexDigitLower (b / 16), hexDigitLower (b % 16)]

/-- `to_hyphenated().encode_lower`: the 8-4-4-4-12 hyphenated lower-case
hex rendering of 16 bytes, as ASCII bytes (45 is the hyphen). -/
def hyphenatedLower (b : Bytes) : Bytes :=
  ((b.take 4).map byteHexLower).flatten ++ [45] ++
  (((b.drop 4).take 2).map byteHexLower).flatten ++ [45] ++
  (((b.drop 6).take 2).map byteHexLower).flatten ++ [45] ++
  (((b.drop 8).take 2).map byteHexLower).flatten ++ [45] ++
  (((b.drop 10).take 6).map byteHexLower).flatten

/-- SCALE encoding of an `Option u32` (the extrinsic index). -/
def encodeOptionU32 : Option Nat → Bytes
  | none => [0]
  | some x => [1, x % 256, x / 256 % 256, x / 256 ^ 2 % 256, x / 256 ^ 3 % 256]

/-- `generate_errand_id`: SCALE-encode the tuple of the per-block random
seed, the sender and the extrinsic index (the encoding of the tuple is the
concatenation of the parts, with the hash and the account entering as their
encoded bytes), hash it with `blake2_128`, stamp UUID variant and version
bits, and render the result as a hyphenated lower-case UUID string. -/
def generate_errand_id (seed : Bytes) (sender : AccountId) (extrinsic_index : Option Nat) : ErrandId :=
  let payload := seed ++ encode_account sender ++ encodeOptionU32 extrinsic_index
  let bytes := set_version_random (set_variant_rfc4122 (blake2_128 payload))
  hyphenatedLower bytes

/-! ### Pallet data model -/

/-- `enum ErrandStatus` of the source (the source spells the initial
status `Precessing`; the spec calls the same lifecycle state `Processing`). -/
inductive ErrandStatus
  | Precessing
  | Done
deriving DecidableEq, Repr

/-- `struct Errand` of the source. -/
structure Errand where
  account_id : EmployerAccountId
  errand_id : ErrandId
  description_cid : Cid
  status : ErrandStatus
  result : Bytes
deriving DecidableEq, Repr

/-- One `Tasks` queue entry: the tuple
`(T::AccountId, Cid, ErrandId, u32)` of the storage declaration. -/
abbrev TaskEntry := AccountId × Cid × ErrandId × Nat

/-- The pallet's on-chain state together with the host environment it
reads (block number, per-block random seed bytes, extrinsic index) and two
ghost histories used only to state invariants: `emitted` records every
identifier the generator produced (with the height it was produced at), and
`created_at` records the height at which each registry entry was last
written. -/
@[ext]
structure ChainState where
  errands : ErrandId → Option Errand
  tasks : Nat → Option (List TaskEntry)
  block_number : Nat
  seed : Bytes
  extrinsic_index : Option Nat
  emitted : List (ErrandId × Nat)
  created_at : ErrandId → Option Nat

/-- The genesis state: empty storage, height 0. -/
def initialState : ChainState :=
  { errands := fun _ => none
    tasks := fun _ => none
    block_number := 0
    seed := []
    extrinsic_index := none
    emitted := []
    created_at := fun _ => none }

/-- The origin of a dispatched call. -/
inductive Origin
  | signed (who : AccountId)
  | root
  | none_origin
deriving DecidableEq

/-- Dispatch errors: `ensure_signed` failure or a pallet error. -/
inductive PalletError
  | NoneValue
  | StorageOverflow
  | InsufficientFee
  | SendErrandTaskError
deriving DecidableEq, Repr

/-- `DispatchError` as it reaches the caller. -/
inductive DispatchError
  | BadOrigin
  | Module (e : PalletError)
deriving DecidableEq, Repr

/-- `ensure_signed`: extract the signer or fail with `BadOrigin`. -/
def ensure_signed : Origin → Except DispatchError AccountId
  | .signed who => .ok who
  | _ => .error .BadOrigin

/-! Storage-map operations of `Errands` and `Tasks` (a Substrate
`StorageMap` whose value type `Vec<..>` defaults to the empty vector, so
`get` of a missing key is `[]` while `contains_key` still distinguishes). -/

/-- `Errands::insert` (also stamps the `created_at` ghost history). -/
def Errands_insert (st : ChainState) (k : ErrandId) (v : Errand) : ChainState :=
  { st with
    errands := fun k2 => if k2 = k then some v else st.errands k2
    created_at := fun k2 => if k2 = k then some st.block_number else st.created_at k2 }

/-- `Tasks::contains_key`. -/
def Tasks_contains_key (st : ChainState) (k : Nat) : Bool := (st.tasks k).isSome

/-- `Tasks::get`: the stored vector or the default empty vector. -/
def Tasks_get (st : ChainState) (k : Nat) : List TaskEntry := (st.tasks k).getD []

/-- `Tasks::take`: read the value (or the default) and remove the key. -/
def Tasks_take (st : ChainState) (k : Nat) : List TaskEntry × ChainState :=
  ((st.tasks k).getD [],
   { st with tasks := fun k2 => if k2 = k then none else st.tasks k2 })

/-- `Tasks::insert`. -/
def Tasks_insert (st : ChainState) (k : Nat) (v : List TaskEntry) : ChainState :=
  { st with tasks := fun k2 => if k2 = k then some v else st.tasks k2 }

/-! ### Dispatchables -/

/-- `begin_task` (the spec's `submit_delegation`): after `ensure_signed`,
generate an errand id, and append the entry
`(sender, description_cid, errand_id, fee)` to the `Tasks` vector at the
current block number (creating it when absent).  The fee checks of the
source are commented out (`todo enable fee`), so the fee is stored
verbatim.  The ghost `emitted` history records the generated id. -/
def begin_task (origin : Origin) (description_cid : Cid) (fee : Nat)
    (st : ChainState) : Except DispatchError ChainState := do
  let sender ← ensure_signed origin
  let errand_id := generate_errand_id st.seed sender st.extrinsic_index
  let block_number := st.block_number
  let st := { st with emitted := st.emitted ++ [(errand_id, block_number)] }
  if Tasks_contains_key st block_number then
    let (task_array, st) := Tasks_take st block_number
    let task_array := task_array ++ [(sender, description_cid, errand_id, fee)]
    pure (Tasks_insert st block_number task_array)
  else
    pure (Tasks_insert st block_number [(sender, description_cid, errand_id, fee)])

/-- `init_errand` (the spec's `record_errand` / Callback Submission
entry point): after `ensure_signed` — with no further authorization check
(`todo ensure sender has right to init errand tasks`) — build an `Errand`
with status `Precessing` and empty result and insert it under the submitted
errand id. -/
def init_errand (origin : Origin) (employer : AccountId) (errand_id : ErrandId)
    (description_cid : Cid) (st : ChainState) : Except DispatchError ChainState := do
  let _sender ← ensure_signed origin
  let errand : Errand :=
    { account_id := encode_account employer
      errand_id := errand_id
      description_cid := description_cid
      status := .Precessing
      result := [] }
  pure (Errands_insert st errand_id errand)

/-! ### Transition system

The deterministic domain changes only through the two dispatchables and
through the host updating the environment (height, seed, extrinsic index).
A failed dispatch leaves the state unchanged. -/

/-- The actions that can change the modelled state. -/
inductive Action
  | beginTask (origin : Origin) (description_cid : Cid) (fee : Nat)
  | initErrand (origin : Origin) (employer : AccountId) (errand_id : ErrandId)
      (description_cid : Cid)
  | hostEnv (block_number : Nat) (seed : Bytes) (extrinsic_index : Option Nat)

/-- Result state of a dispatch: the new state on success, the old one on
failure. -/
def applyDispatch (st : ChainState) : Except DispatchError ChainState → ChainState
  | .ok st2 => st2
  | .error _ => st

/-- The state after performing an action. -/
def stepOf (st : ChainState) : Action → ChainState
  | .beginTask o cid fee => applyDispatch st (begin_task o cid fee st)
  | .initErrand o emp eid cid => applyDispatch st (init_errand o emp eid cid st)
  | .hostEnv bn sd ei => { st with block_number := bn, seed := sd, extrinsic_index := ei }

/-- The reachable states of the system. -/
inductive Reachable : ChainState → Prop
  | init : Reachable initialState
  | step (st : ChainState) (a : Action) : Reachable st → Reachable (stepOf st a)

/-! ### UTF-8 validation (`str::from_utf8`) -/

/-- Lower bound of the first continuation byte for a 3- or 4-byte lead. -/
def utf8Cont1Lo (b : Nat) : Nat := if b = 0xe0 then 0xa0 else if b = 0xf0 then 0x90 else 0x80

/-- Upper bound of the first continuation byte for a 3- or 4-byte lead. -/
def utf8Cont1Hi (b : Nat) : Nat := if b = 0xed then 0x9f else if b = 0xf4 then 0x8f else 0xbf

/-- Whether a byte is a UTF-8 continuation byte. -/
def isCont (c : Nat) : Bool := 0x80 ≤ c && c ≤ 0xbf

/-- Strict UTF-8 validity of a byte string, as checked by Rust's
`str::from_utf8` (overlong forms, surrogates and values beyond U+10FFFF
are rejected). -/
def isValidUtf8 : Bytes → Bool
  | [] => true
  | b :: rest =>
    if b < 0x80 then isValidUtf8 rest
    else if b < 0xc2 then false
    else if b ≤ 0xdf then
      match rest with
      | c1 :: r => isCont c1 && isValidUtf8 r
      | [] => false
    else if b ≤ 0xef then
      match rest with
      | c1 :: c2 :: r =>
        (utf8Cont1Lo b ≤ c1 && c1 ≤ utf8Cont1Hi b) && isCont c2 && isValidUtf8 r
      | _ => false
    else if b ≤ 0xf4 then
      match rest with
      | c1 :: c2 :: c3 :: r =>
        (utf8Cont1Lo b ≤ c1 && c1 ≤ utf8Cont1Hi b) && isCont c2 && isCont c3 && isValidUtf8 r
      | _ => false
    else false

/-- `str::from_utf8`, with the error already mapped to
`SendErrandTaskError` as every call site of the source does. -/
def from_utf8 (bs : Bytes) : Except PalletError Bytes :=
  if isValidUtf8 bs then .ok bs else .error .SendErrandTaskError

/-! ### External service client -/

/-- `SERVICE_BASE_URL` of the source. -/
def SERVICE_BASE_URL : String := "http://localhost:8000"

/-- `TEA_SEND_TASK_TIMEOUT_PERIOD` of the source, in milliseconds. -/
def TEA_SEND_TASK_TIMEOUT_PERIOD : Nat := 3000

/-- `struct ErrandService` of the source. -/
structure ErrandService where
  action : Bytes
  account : Bytes
  proof_of_delegate : Bytes
  errand_id : ErrandId
  description_cid : Bytes

/-- `new_errand_service`: fixed action path, placeholder account and
delegation proof, and the entry's errand id and payload reference. -/
def new_errand_service (description_cid : Cid) (errand_id : ErrandId) : ErrandService :=
  { action := ascii "/api/service"
    account := ascii "5GBykvvrUz3vwTttgHzUEPdm7G1FND1reBfddQLdiaCbhoMd"
    proof_of_delegate := ascii "0x14fd87f46da9cd46750b93ba1aec47dc37ceb132dc97fa2b932bc9938a6cb9306a1fb070926ce9a3ade8ea6b49e51794741de6551daedf6ded090b94691d1c8b"
    errand_id := errand_id
    description_cid := description_cid }

/-- The request-URL concatenation of `send_task_to_tea_network`:
`[SERVICE_BASE_URL, action, "/", account, "/", errand_id, "/", proof,
"?content=", cid].concat()`, with each non-literal segment passed through
`str::from_utf8` first. -/
def build_request_url (description_cid : Cid) (errand_id : ErrandId) :
    Except PalletError Bytes := do
  let service := new_errand_service description_cid errand_id
  let action ← from_utf8 service.action
  let account ← from_utf8 service.account
  let eid ← from_utf8 service.errand_id
  let proof ← from_utf8 service.proof_of_delegate
  let cid ← from_utf8 service.description_cid
  pure (ascii SERVICE_BASE_URL ++ action ++ ascii "/" ++ account ++ ascii "/" ++ eid
    ++ ascii "/" ++ proof ++ ascii "?content=" ++ cid)

/-- The observable shape of the outgoing request: method, URL, body chunks
(`post_body = vec![b""]` is a single empty chunk) and the deadline
budget in milliseconds. -/
structure HttpRequest where
  method : Bytes
  url : Bytes
  body : List Bytes
  deadline_ms : Nat
deriving DecidableEq, Repr

/-- The request `send_task_to_tea_network` sends for a given URL: a POST
with the empty body and the fixed 3000 ms deadline budget. -/
def new_http_request (url : Bytes) : HttpRequest :=
  { method := ascii "POST"
    url := url
    body := [[]]
    deadline_ms := TEA_SEND_TASK_TIMEOUT_PERIOD }

/-- `build_request`: the URL construction followed by the request
assembly; everything of `send_task_to_tea_network` up to the actual send. -/
def build_request (description_cid : Cid) (errand_id : ErrandId) :
    Except PalletError HttpRequest := do
  let url ← build_request_url description_cid errand_id
  pure (new_http_request url)

/-- What the external world does with one request: `request.send()` can
fail, `try_wait` can fail (deadline expiry or transport error), or a
response with some status code arrives. -/
inductive HttpOutcome
  | sendError
  | waitError
  | response (code : Nat)
deriving DecidableEq, Repr

/-- `send_task_to_tea_network`: build the request, perform it, and
classify the outcome — send failure, wait/deadline failure and any status
code other than 200 all map to `SendErrandTaskError`. -/
def send_task_to_tea_network (description_cid : Cid) (errand_id : ErrandId)
    (outcome : HttpOutcome) : Except PalletError Unit := do
  let _request ← build_request description_cid errand_id
  match outcome with
  | .sendError => .error .SendErrandTaskError
  | .waitError => .error .SendErrandTaskError
  | .response code =>
    if code ≠ 200 then .error .SendErrandTaskError else pure ()

/-! ### Dispatch scheduler (offchain worker) -/

/-- The arguments of one attempted Callback Submission:
`Call::init_errand(sender, errand_id, description_cid)`. -/
abbrev CallbackCall := AccountId × ErrandId × Cid

/-- The callback call built from a task entry in `send_errand_tasks`. -/
def mk_callback (item : TaskEntry) : CallbackCall := (item.1, item.2.2.1, item.2.1)

/-- The `for item in task_array.iter()` loop of `send_errand_tasks`: for
each entry call the external service (the `http` oracle gives the world's
outcome for the i-th call of this invocation); on error log and continue
with the next entry, on success attempt the Callback Submission.  Returns
the list of attempted callback calls in order. -/
def process_tasks : List TaskEntry → (Nat → HttpOutcome) → Nat → List CallbackCall
  | [], _, _ => []
  | item :: rest, http, i =>
    match send_task_to_tea_network item.2.1 item.2.2.1 (http i) with
    | .error _ => process_tasks rest http (i + 1)
    | .ok _ => mk_callback item :: process_tasks rest http (i + 1)

/-- `send_errand_tasks`: return immediately when the current height has no
tasks or no local signing identity is available; otherwise read (not
remove) the height's entries with `Tasks::get` and run the dispatch loop.
Returns the attempted Callback Submissions. -/
def send_errand_tasks (st : ChainState) (can_sign : Bool)
    (http : Nat → HttpOutcome) : List CallbackCall :=
  if ¬ Tasks_contains_key st st.block_number then []
  else if ¬ can_sign then []
  else process_tasks (Tasks_get st st.block_number) http 0

/-- The deterministic-domain effect of one accepted Callback Submission:
the signed `init_errand` transaction dispatched for the callback. -/
def submit_callback (submitter : AccountId) (st : ChainState) (cb : CallbackCall) : ChainState :=
  applyDispatch st (init_errand (.signed submitter) cb.1 cb.2.1 cb.2.2 st)

/-- One worker invocation together with the later on-chain execution of
every callback transaction it submitted, in order. -/
def worker_round (st : ChainState) (can_sign : Bool) (http : Nat → HttpOutcome)
    (submitter : AccountId) : ChainState :=
  (send_errand_tasks st can_sign http).foldl (submit_callback submitter) st

/-! ### Characterization lemmas -/

/-- A successful `init_errand` is exactly an `Errands_insert` of the
`Precessing` record. -/
lemma init_errand_signed_eq (w emp : AccountId) (eid : ErrandId) (cid : Cid)
    (st : ChainState) :
    init_errand (Origin.signed w) emp eid cid st = Except.ok
      (Errands_insert st eid
        { account_id := encode_account emp, errand_id := eid,
          description_cid := cid, status := ErrandStatus.Precessing, result := [] }) := rfl

/-- The did-not-sign cases of `init_errand`. -/
lemma init_errand_unsigned_root (emp : AccountId) (eid : ErrandId) (cid : Cid)
    (st : ChainState) :
    init_errand Origin.root emp eid cid st = Except.error DispatchError.BadOrigin := rfl

/-- The did-not-sign cases of `init_errand`, none-origin form. -/
lemma init_errand_unsigned_none (emp : AccountId) (eid : ErrandId) (cid : Cid)
    (st : ChainState) :
    init_errand Origin.none_origin emp eid cid st = Except.error DispatchError.BadOrigin := rfl

/-- A successful `begin_task` appends the new entry to the current
height's vector (whether or not the vector already exists) and records the
generated id in the ghost emission history; nothing else changes. -/
lemma begin_task_signed_eq (w : AccountId) (cid : Cid) (fee : Nat) (st : ChainState) :
    begin_task (Origin.signed w) cid fee st = Except.ok
      { st with
        emitted := st.emitted ++
          [(generate_errand_id st.seed w st.extrinsic_index, st.block_number)]
        tasks := fun k => if k = st.block_number
          then some (Tasks_get st st.block_number ++
            [(w, cid, generate_errand_id st.seed w st.extrinsic_index, fee)])
          else st.tasks k } := by
  show (if Tasks_contains_key _ st.block_number then _ else _) = _
  cases hcase : st.tasks st.block_number with
  | some arr =>
    rw [if_pos (by simp [Tasks_contains_key, hcase])]
    apply congrArg
    apply ChainState.ext <;> simp [Tasks_take, Tasks_insert, Tasks_get, hcase]
    funext k2
    by_cases hk : k2 = st.block_number <;> simp [hk]
  | none =>
    rw [if_neg (by simp [Tasks_contains_key, hcase])]
    apply congrArg
    apply ChainState.ext <;> simp [Tasks_insert, Tasks_get, hcase]

/-- `Errands_insert` leaves the task queue, the environment and the
emission history untouched. -/
lemma Errands_insert_frame (st : ChainState) (k : ErrandId) (v : Errand) :
    (Errands_insert st k v).tasks = st.tasks ∧
    (Errands_insert st k v).block_number = st.block_number ∧
    (Errands_insert st k v).seed = st.seed ∧
    (Errands_insert st k v).extrinsic_index = st.extrinsic_index ∧
    (Errands_insert st k v).emitted = st.emitted := by
  simp [Errands_insert]

/-- A `submit_callback` application never changes the task queue. -/
lemma submit_callback_tasks (submitter : AccountId) (st : ChainState) (cb : CallbackCall) :
    (submit_callback submitter st cb).tasks = st.tasks := by
  simp [submit_callback, init_errand_signed_eq, applyDispatch, Errands_insert]

/-- Folding `submit_callback` over any callback list never changes the
task queue. -/
lemma foldl_submit_callback_tasks (submitter : AccountId) (cbs : List CallbackCall) :
    ∀ st : ChainState, (cbs.foldl (submit_callback submitter) st).tasks = st.tasks := by
  induction cbs with
  | nil => intro st; rfl
  | cons cb rest ih =>
    intro st
    rw [List.foldl_cons, ih, submit_callback_tasks]

/-- Bind of a successful `Except` computation. -/
lemma except_bind_ok {α β ε : Type} (a : α) (f : α → Except ε β) :
    (Except.ok a : Except ε α) >>= f = f a := rfl

/-- Bind of a failed `Except` computation. -/
lemma except_bind_err {α β ε : Type} (e : ε) (f : α → Except ε β) :
    (Except.error e : Except ε α) >>= f = Except.error e := rfl

/-- A single action either leaves a registry entry as it was or creates
one with status `Precessing`. -/
lemma stepOf_errands_cases (s : ChainState) (a : Action) (i : ErrandId) (e : Errand)
    (h : (stepOf s a).errands i = some e) :
    s.errands i = some e ∨ e.status = ErrandStatus.Precessing := by
  cases a with
  | beginTask o cid fee =>
    left
    cases o with
    | signed w =>
      simp only [stepOf, begin_task_signed_eq, applyDispatch] at h
      exact h
    | root => exact h
    | none_origin => exact h
  | initErrand o emp eid cid =>
    cases o with
    | signed w =>
      simp only [stepOf, init_errand_signed_eq, applyDispatch] at h
      by_cases hi : i = eid
      · subst hi
        simp [Errands_insert] at h
        right
        rw [← h]
      · left
        simpa [Errands_insert, hi] using h
    | root => exact Or.inl h
    | none_origin => exact Or.inl h
  | hostEnv bn sd ei => exact Or.inl h

/-- In every reachable state, every registry entry has status
`Precessing`. -/
lemma reachable_status_invariant :
    ∀ s, Reachable s → ∀ i e, s.errands i = some e → e.status = ErrandStatus.Precessing := by
  intro s hs
  induction hs with
  | init => intro i e h; simp [initialState] at h
  | step st a _ ih =>
    intro i e h
    rcases stepOf_errands_cases st a i e h with h2 | h2
    · exact ih i e h2
    · exact h2

/-! ### Claim theorems -/

/-- C1: when the Callback Submission (`init_errand`) is accepted for a
signed origin with a requester, task id and payload reference, the Errand
Registry gains an entry under that task id whose `description_cid` equals
the submitted payload reference, whose status is `Precessing` (the spec's
`Processing`) and whose result is empty; and in every reachable state of
the core, every registry entry has that status — no other status is ever
produced. -/
theorem init_errand_creates_processing_entry (st : ChainState) (w emp : AccountId)
    (eid : ErrandId) (cid : Cid) :
    (∃ st2, init_errand (Origin.signed w) emp eid cid st = Except.ok st2 ∧
      st2.errands eid = some
        { account_id := encode_account emp
          errand_id := eid
          description_cid := cid
          status := ErrandStatus.Precessing
          result := [] }) ∧
    (∀ s, Reachable s → ∀ i e, s.errands i = some e →
      e.status = ErrandStatus.Precessing) := by
  constructor
  · exact ⟨_, init_errand_signed_eq w emp eid cid st, by simp [Errands_insert]⟩
  · exact reachable_status_invariant

/-- C1 witness: the creation theorem applied at the genesis state with a
concrete requester, task id and payload reference. -/
theorem init_errand_creates_processing_entry_witness :
    (∃ st2, init_errand (Origin.signed [3]) [4] [65, 66] [99] initialState = Except.ok st2 ∧
      st2.errands [65, 66] = some
        { account_id := encode_account [4]
          errand_id := [65, 66]
          description_cid := [99]
          status := ErrandStatus.Precessing
          result := [] }) ∧
    (∀ s, Reachable s → ∀ i e, s.errands i = some e →
      e.status = ErrandStatus.Precessing) :=
  init_errand_creates_processing_entry initialState [3] [4] [65, 66] [99]

/-- Claim C2 as stated: in every reachable state, every task id in the
registry was previously emitted by the identifier generator at a height at
most the height the registry entry was created at, and the registry only
changes through a signed `init_errand` action. -/
def registryEmissionClaim : Prop :=
  (∀ s, Reachable s → ∀ i e, s.errands i = some e →
    ∃ hg, (i, hg) ∈ s.emitted ∧ ∀ hc, s.created_at i = some hc → hg ≤ hc) ∧
  (∀ (s : ChainState) (a : Action), (stepOf s a).errands ≠ s.errands →
    ∃ w emp eid cid, a = Action.initErrand (Origin.signed w) emp eid cid)

/-- C2 counterexample: the claim is false, because `init_errand` performs
no check that the submitted task id was ever generated — from the genesis
state, one signed `init_errand` with the arbitrary task id `[65]` reaches
a state whose registry holds an id the generator never emitted (the
emission history is empty there). -/
theorem registry_emission_claim_false : ¬ registryEmissionClaim := by
  intro hclaim
  obtain ⟨h1, _⟩ := hclaim
  have hreach :
      Reachable (stepOf initialState (Action.initErrand (Origin.signed [0]) [0] [65] [])) :=
    Reachable.step initialState _ Reachable.init
  obtain ⟨hg, hmem, _⟩ := h1 _ hreach [65]
    { account_id := [0]
      errand_id := [65]
      description_cid := []
      status := ErrandStatus.Precessing
      result := [] }
    (by simp [stepOf, applyDispatch, init_errand_signed_eq, Errands_insert, encode_account])
  simp [stepOf, applyDispatch, init_errand_signed_eq, Errands_insert, initialState] at hmem

/-- C2 (amended): the Errand Registry is only ever written through a
signed Callback Submission — any action that changes the registry is an
`init_errand` with a signed origin — but the task id written need not have
been emitted by the Identifier Generator, since `init_errand` accepts an
arbitrary id from any signed caller. -/
theorem registry_written_only_by_signed_init_errand (s : ChainState) (a : Action)
    (h : (stepOf s a).errands ≠ s.errands) :
    ∃ w emp eid cid, a = Action.initErrand (Origin.signed w) emp eid cid := by
  cases a with
  | beginTask o cid fee =>
    exfalso
    apply h
    cases o with
    | signed w => simp [stepOf, begin_task_signed_eq, applyDispatch]
    | root => rfl
    | none_origin => rfl
  | initErrand o emp eid cid =>
    cases o with
    | signed w => exact ⟨w, emp, eid, cid, rfl⟩
    | root => exact absurd rfl h
    | none_origin => exact absurd rfl h
  | hostEnv bn sd ei => exact absurd rfl h

/-- C2 witness: at the genesis state, the signed `init_errand` action with
task id `[65]` changes the registry, and the amended theorem classifies it
as a signed Callback Submission. -/
theorem registry_written_only_by_signed_init_errand_witness :
    ∃ w emp eid cid, Action.initErrand (Origin.signed [0]) [1] [65] [2]
      = Action.initErrand (Origin.signed w) emp eid cid :=
  registry_written_only_by_signed_init_errand initialState
    (Action.initErrand (Origin.signed [0]) [1] [65] [2]) (by
      intro heq
      have happ := congrFun heq [65]
      simp [stepOf, applyDispatch, init_errand_signed_eq, Errands_insert,
        initialState] at happ)

/-- A call whose outcome is anything other than a 200 response (a send
failure, a deadline or transport failure while waiting, or another status
code) makes `send_task_to_tea_network` return an error. -/
lemma send_task_fails_of_not_200 (cid : Cid) (eid : ErrandId) (outcome : HttpOutcome)
    (h : outcome ≠ HttpOutcome.response 200) :
    ∃ e, send_task_to_tea_network cid eid outcome = Except.error e := by
  cases hb : build_request cid eid with
  | error e =>
    exact ⟨e, by simp [send_task_to_tea_network, hb, except_bind_err]⟩
  | ok req =>
    cases outcome with
    | sendError =>
      exact ⟨PalletError.SendErrandTaskError,
        by simp [send_task_to_tea_network, hb, except_bind_ok]⟩
    | waitError =>
      exact ⟨PalletError.SendErrandTaskError,
        by simp [send_task_to_tea_network, hb, except_bind_ok]⟩
    | response c =>
      have hc : c ≠ 200 := by
        intro hc2
        exact h (by rw [hc2])
      exact ⟨PalletError.SendErrandTaskError,
        by simp [send_task_to_tea_network, hb, except_bind_ok, hc]⟩

/-- C3: if the external call for a queue entry does not come back with
status 200 — including transport failures and deadline expiry — then no
Callback Submission is attempted for that entry and the dispatch loop
continues with the remaining entries unchanged. -/
theorem failed_send_skips_entry (item : TaskEntry) (rest : List TaskEntry)
    (http : Nat → HttpOutcome) (i : Nat) (h : http i ≠ HttpOutcome.response 200) :
    process_tasks (item :: rest) http i = process_tasks rest http (i + 1) := by
  obtain ⟨e, he⟩ := send_task_fails_of_not_200 item.2.1 item.2.2.1 (http i) h
  simp [process_tasks, he]

/-- C3 witness: with the external service answering 500, the first entry
produces no callback and the loop moves on to the second entry. -/
theorem failed_send_skips_entry_witness :
    ((fun _ => HttpOutcome.response 500) 0 ≠ HttpOutcome.response 200) ∧
    process_tasks [([1], [99], [100], 7), ([2], [99], [101], 8)]
        (fun _ => HttpOutcome.response 500) 0
      = process_tasks [([2], [99], [101], 8)] (fun _ => HttpOutcome.response 500) 1 :=
  ⟨by decide,
    failed_send_skips_entry ([1], [99], [100], 7) [([2], [99], [101], 8)]
      (fun _ => HttpOutcome.response 500) 0 (by decide)⟩

/-- C4: invoking the Callback Submission twice with the same origin,
employer, task id and payload reference leaves the state exactly as one
invocation does — the registry insert is an unconditional overwrite with
no accumulated side effects. -/
theorem callback_submission_idempotent (o : Origin) (emp : AccountId) (eid : ErrandId)
    (cid : Cid) (st : ChainState) :
    (init_errand o emp eid cid st).bind (init_errand o emp eid cid) =
      init_errand o emp eid cid st := by
  cases o with
  | signed w =>
    rw [init_errand_signed_eq]
    show init_errand _ _ _ _ _ = _
    rw [init_errand_signed_eq]
    apply congrArg
    refine ChainState.ext ?_ rfl rfl rfl rfl rfl ?_
    · funext k
      by_cases hk : k = eid <;> simp [Errands_insert, hk]
    · funext k
      by_cases hk : k = eid <;> simp [Errands_insert, hk]
  | root => rfl
  | none_origin => rfl

/-- C4 witness: the idempotence theorem applied at the genesis state with
a concrete signed origin, employer, task id and payload reference. -/
theorem callback_submission_idempotent_witness :
    (init_errand (Origin.signed [1]) [2] [70] [80] initialState).bind
        (init_errand (Origin.signed [1]) [2] [70] [80]) =
      init_errand (Origin.signed [1]) [2] [70] [80] initialState :=
  callback_submission_idempotent (Origin.signed [1]) [2] [70] [80] initialState

/-- C5: a signed `begin_task` appends its entry at the end of the current
height's queue vector without disturbing the existing entries, so a later
read (`Tasks_get`, the scheduler's drain) returns the old entries followed
by the new one, which is in particular included. -/
theorem enqueue_appends_in_arrival_order (st : ChainState) (w : AccountId)
    (cid : Cid) (fee : Nat) :
    ∃ st2, begin_task (Origin.signed w) cid fee st = Except.ok st2 ∧
      Tasks_get st2 st.block_number = Tasks_get st st.block_number ++
        [(w, cid, generate_errand_id st.seed w st.extrinsic_index, fee)] ∧
      (w, cid, generate_errand_id st.seed w st.extrinsic_index, fee)
        ∈ Tasks_get st2 st.block_number := by
  refine ⟨_, begin_task_signed_eq w cid fee st, ?_, ?_⟩
  · simp [Tasks_get]
  · simp [Tasks_get]

/-- C5 witness: the append theorem applied at the genesis state with a
concrete sender, payload reference and fee. -/
theorem enqueue_appends_in_arrival_order_witness :
    ∃ st2, begin_task (Origin.signed [5]) [77] 9 initialState = Except.ok st2 ∧
      Tasks_get st2 initialState.block_number = Tasks_get initialState initialState.block_number ++
        [([5], [77], generate_errand_id initialState.seed [5] initialState.extrinsic_index, 9)] ∧
      ([5], [77], generate_errand_id initialState.seed [5] initialState.extrinsic_index, 9)
        ∈ Tasks_get st2 initialState.block_number :=
  enqueue_appends_in_arrival_order initialState [5] [77] 9

/-- C6: the identifier generator is deterministic — two runs with the same
entropy seed, requester identity and local counter produce the same task
id byte string. -/
theorem generate_errand_id_deterministic (s1 s2 : Bytes) (r1 r2 : AccountId)
    (x1 x2 : Option Nat) (hs : s1 = s2) (hr : r1 = r2) (hx : x1 = x2) :
    generate_errand_id s1 r1 x1 = generate_errand_id s2 r2 x2 := by
  subst hs
  subst hr
  subst hx
  rfl

/-- C6 witness: the determinism theorem applied at a concrete seed,
requester and counter. -/
theorem generate_errand_id_deterministic_witness :
    generate_errand_id (List.replicate 32 7) (List.replicate 32 1) (some 2)
      = generate_errand_id (List.replicate 32 7) (List.replicate 32 1) (some 2) :=
  generate_errand_id_deterministic (List.replicate 32 7) (List.replicate 32 7)
    (List.replicate 32 1) (List.replicate 32 1) (some 2) (some 2) rfl rfl rfl

/-- The fixed action path segment is valid UTF-8. -/
lemma action_utf8_ok : isValidUtf8 (ascii "/api/service") = true := by decide

/-- The placeholder account segment is valid UTF-8. -/
lemma account_utf8_ok :
    isValidUtf8 (ascii "5GBykvvrUz3vwTttgHzUEPdm7G1FND1reBfddQLdiaCbhoMd") = true := by decide

/-- The placeholder delegation-proof segment is valid UTF-8. -/
lemma proof_utf8_ok :
    isValidUtf8 (ascii "0x14fd87f46da9cd46750b93ba1aec47dc37ceb132dc97fa2b932bc9938a6cb9306a1fb070926ce9a3ade8ea6b49e51794741de6551daedf6ded090b94691d1c8b") = true := by decide

/-- Merging the base URL, action segment, separator and account segment
into one literal. -/
lemma url_head_eq (X : Bytes) :
    ascii "http://localhost:8000" ++ (ascii "/api/service" ++ (ascii "/" ++
      (ascii "5GBykvvrUz3vwTttgHzUEPdm7G1FND1reBfddQLdiaCbhoMd" ++ (ascii "/" ++ X))))
    = ascii "http://localhost:8000/api/service/5GBykvvrUz3vwTttgHzUEPdm7G1FND1reBfddQLdiaCbhoMd/" ++ X := by
  have h1 : ascii "http://localhost:8000/api/service/5GBykvvrUz3vwTttgHzUEPdm7G1FND1reBfddQLdiaCbhoMd/"
      = ascii "http://localhost:8000" ++ ascii "/api/service" ++ ascii "/" ++
        ascii "5GBykvvrUz3vwTttgHzUEPdm7G1FND1reBfddQLdiaCbhoMd" ++ ascii "/" := by decide
  rw [h1]
  simp [List.append_assoc]

/-- Merging the separator, proof segment and query prefix into one
literal. -/
lemma url_tail_eq (X : Bytes) :
    ascii "/" ++ (ascii "0x14fd87f46da9cd46750b93ba1aec47dc37ceb132dc97fa2b932bc9938a6cb9306a1fb070926ce9a3ade8ea6b49e51794741de6551daedf6ded090b94691d1c8b" ++ (ascii "?content=" ++ X))
    = ascii "/0x14fd87f46da9cd46750b93ba1aec47dc37ceb132dc97fa2b932bc9938a6cb9306a1fb070926ce9a3ade8ea6b49e51794741de6551daedf6ded090b94691d1c8b?content=" ++ X := by
  have h1 : ascii "/0x14fd87f46da9cd46750b93ba1aec47dc37ceb132dc97fa2b932bc9938a6cb9306a1fb070926ce9a3ade8ea6b49e51794741de6551daedf6ded090b94691d1c8b?content="
      = ascii "/" ++ ascii "0x14fd87f46da9cd46750b93ba1aec47dc37ceb132dc97fa2b932bc9938a6cb9306a1fb070926ce9a3ade8ea6b49e51794741de6551daedf6ded090b94691d1c8b" ++ ascii "?content=" := by decide
  rw [h1]
  simp [List.append_assoc]

/-- For UTF-8-valid task id and payload reference the URL concatenation
succeeds and equals the fixed template. -/
lemma build_request_url_eq (eid : ErrandId) (cid : Cid)
    (he : isValidUtf8 eid = true) (hc : isValidUtf8 cid = true) :
    build_request_url cid eid = Except.ok
      (ascii "http://localhost:8000/api/service/5GBykvvrUz3vwTttgHzUEPdm7G1FND1reBfddQLdiaCbhoMd/"
        ++ (eid ++ (ascii "/0x14fd87f46da9cd46750b93ba1aec47dc37ceb132dc97fa2b932bc9938a6cb9306a1fb070926ce9a3ade8ea6b49e51794741de6551daedf6ded090b94691d1c8b?content=" ++ cid))) := by
  simp only [build_request_url, new_errand_service, from_utf8, action_utf8_ok,
    account_utf8_ok, proof_utf8_ok, he, hc, if_true, except_bind_ok, SERVICE_BASE_URL]
  apply congrArg
  simp only [List.append_assoc]
  rw [url_head_eq, url_tail_eq]

/-- C7: for every UTF-8-valid payload reference and task id, the external
service client builds exactly the request target
base-url/api/service/account/task-id/proof?content=payload-ref as a POST
with an empty body and the fixed 3000 ms deadline budget, and a 200
response is the only outcome it treats as success. -/
theorem external_request_shape (eid : ErrandId) (cid : Cid)
    (he : isValidUtf8 eid = true) (hc : isValidUtf8 cid = true) :
    build_request cid eid = Except.ok
      { method := ascii "POST"
        url := ascii "http://localhost:8000/api/service/5GBykvvrUz3vwTttgHzUEPdm7G1FND1reBfddQLdiaCbhoMd/"
          ++ (eid ++ (ascii "/0x14fd87f46da9cd46750b93ba1aec47dc37ceb132dc97fa2b932bc9938a6cb9306a1fb070926ce9a3ade8ea6b49e51794741de6551daedf6ded090b94691d1c8b?content=" ++ cid))
        body := [[]]
        deadline_ms := 3000 } ∧
    (∀ outcome, (send_task_to_tea_network cid eid outcome = Except.ok ()) ↔
      outcome = HttpOutcome.response 200) := by
  have hurl := build_request_url_eq eid cid he hc
  have hreq : build_request cid eid = Except.ok
      (new_http_request
        (ascii "http://localhost:8000/api/service/5GBykvvrUz3vwTttgHzUEPdm7G1FND1reBfddQLdiaCbhoMd/"
          ++ (eid ++ (ascii "/0x14fd87f46da9cd46750b93ba1aec47dc37ceb132dc97fa2b932bc9938a6cb9306a1fb070926ce9a3ade8ea6b49e51794741de6551daedf6ded090b94691d1c8b?content=" ++ cid)))) := by
    simp [build_request, hurl, except_bind_ok]
  constructor
  · rw [hreq]
    rfl
  · intro outcome
    cases outcome with
    | sendError => simp [send_task_to_tea_network, hreq, except_bind_ok]
    | waitError => simp [send_task_to_tea_network, hreq, except_bind_ok]
    | response c =>
      by_cases hcc : c = 200
      · subst hcc
        simp [send_task_to_tea_network, hreq, except_bind_ok]
      · simp [send_task_to_tea_network, hreq, except_bind_ok, hcc]

/-- C7 witness: the request-shape theorem applied at the concrete task id
"b2f07-task" and payload reference "bafy123". -/
theorem external_request_shape_witness :
    (isValidUtf8 (ascii "b2f07-task") = true ∧ isValidUtf8 (ascii "bafy123") = true) ∧
    (build_request (ascii "bafy123") (ascii "b2f07-task") = Except.ok
      { method := ascii "POST"
        url := ascii "http://localhost:8000/api/service/5GBykvvrUz3vwTttgHzUEPdm7G1FND1reBfddQLdiaCbhoMd/"
          ++ (ascii "b2f07-task" ++ (ascii "/0x14fd87f46da9cd46750b93ba1aec47dc37ceb132dc97fa2b932bc9938a6cb9306a1fb070926ce9a3ade8ea6b49e51794741de6551daedf6ded090b94691d1c8b?content=" ++ ascii "bafy123"))
        body := [[]]
        deadline_ms := 3000 } ∧
    (∀ outcome, (send_task_to_tea_network (ascii "bafy123") (ascii "b2f07-task") outcome = Except.ok ()) ↔
      outcome = HttpOutcome.response 200)) :=
  ⟨⟨by decide, by decide⟩,
    external_request_shape (ascii "b2f07-task") (ascii "bafy123") (by decide) (by decide)⟩

/-- C8: a worker invocation, together with the on-chain execution of every
callback it submitted, never removes or modifies the Task Queue — the
queue at every height is identical before and after, so a later run
observes the same entries again. -/
theorem scheduler_preserves_task_queue (st : ChainState) (can_sign : Bool)
    (http : Nat → HttpOutcome) (submitter : AccountId) (h : Nat) :
    (worker_round st can_sign http submitter).tasks h = st.tasks h := by
  rw [worker_round, foldl_submit_callback_tasks]

/-- C8 witness: the queue-preservation theorem applied at the genesis
state with a signing worker and an always-200 external service. -/
theorem scheduler_preserves_task_queue_witness :
    (worker_round initialState true (fun _ => HttpOutcome.response 200) [6]).tasks 0
      = initialState.tasks 0 :=
  scheduler_preserves_task_queue initialState true (fun _ => HttpOutcome.response 200) [6] 0

/-- C9: a successful signed `begin_task` changes only the Task Queue entry
at the current block height: the Errand Registry is untouched and the
queue vector at every other height is unchanged. -/
theorem begin_task_frame_effect (st : ChainState) (w : AccountId) (cid : Cid)
    (fee : Nat) :
    ∃ st2, begin_task (Origin.signed w) cid fee st = Except.ok st2 ∧
      st2.errands = st.errands ∧
      ∀ h, h = st.block_number ∨ st2.tasks h = st.tasks h := by
  refine ⟨_, begin_task_signed_eq w cid fee st, rfl, ?_⟩
  intro h
  by_cases hh : h = st.block_number
  · exact Or.inl hh
  · exact Or.inr (by simp [hh])

/-- C9 witness: the frame theorem applied at the genesis state with a
concrete sender, payload reference and fee. -/
theorem begin_task_frame_effect_witness :
    ∃ st2, begin_task (Origin.signed [7]) [88] 3 initialState = Except.ok st2 ∧
      st2.errands = initialState.errands ∧
      ∀ h, h = initialState.block_number ∨ st2.tasks h = initialState.tasks h :=
  begin_task_frame_effect initialState [7] [88] 3

/-- C10: `begin_task` succeeds for every signed caller and every fee value
(the fee checks are commented out in the source), and the fee is stored
verbatim in the created queue entry. -/
theorem begin_task_accepts_any_fee (st : ChainState) (w : AccountId) (cid : Cid)
    (fee : Nat) :
    (∃ st2, begin_task (Origin.signed w) cid fee st = Except.ok st2 ∧
      (w, cid, generate_errand_id st.seed w st.extrinsic_index, fee)
        ∈ Tasks_get st2 st.block_number) ∧
    ∃ stz, begin_task (Origin.signed w) cid 0 st = Except.ok stz := by
  constructor
  · exact ⟨_, begin_task_signed_eq w cid fee st, by simp [Tasks_get]⟩
  · exact ⟨_, begin_task_signed_eq w cid 0 st⟩

/-- C10 witness: the fee theorem applied at the genesis state with a
concrete sender and the fee 0. -/
theorem begin_task_accepts_any_fee_witness :
    (∃ st2, begin_task (Origin.signed [8]) [90] 0 initialState = Except.ok st2 ∧
      ([8], [90], generate_errand_id initialState.seed [8] initialState.extrinsic_index, 0)
        ∈ Tasks_get st2 initialState.block_number) ∧
    ∃ stz, begin_task (Origin.signed [8]) [90] 0 initialState = Except.ok stz :=
  begin_task_accepts_any_fee initialState [8] [90] 0

end AbcDemo
